import Mathlib

/-!
Shallow embedding of the `tanks` simulation core (`src/main.rs`) and proofs
about its tick systems.

Modelling conventions:
* `f32` scalars are embedded as exact rationals (`ℚ`).  All the game's
  arithmetic except square roots is `+ - * /` on small values, which the
  rational model mirrors operation by operation.
* `f32::sqrt` (reached via `Vec3::normalize`, `length` and the discriminant
  root in `intersect_segment_circle`) is treated as an oracle parameter
  `sq : ℚ → ℚ` threaded through every definition that can reach it.  Every
  theorem below either holds for all oracles or instantiates one.
* The one place where the exact binary32 rounding of the source matters is
  the fuse countdown (`clean_fuses` subtracts the f32 constant `1.0 / 60.0`
  from an f32 accumulator).  There we model IEEE binary32
  round-to-nearest-even over rationals (`round32`) and use the exact
  rational value of the f32 constant, so the countdown trajectory is
  bit-faithful to the source.
* Bevy ECS queries become explicit record fields: the world is a `State`
  holding the player entities, bullet entities and wall entities; each
  system is a `State → State` function.  `Commands` spawns/despawns are
  applied at stage end in bevy, which the list append / `filterMap` model
  reproduces.  Only simulation-relevant components are modelled (sprite
  colors, meshes and rotations are render-only per the spec).

Several core `Rat` operations are `@[irreducible]` in Batteries, which
blocks `decide` on concrete rational computations; we restore the default
reducibility for them (the kernel ignores reducibility attributes anyway,
so this changes nothing about what is proved).
-/

attribute [local semireducible] Rat.add Rat.mul Rat.inv Rat.sub Rat.ofScientific

/-- 2D vector (`glam::Vec2` as used by `Rigidbody.vel`). -/
structure Vec2 where
  x : ℚ
  y : ℚ
deriving DecidableEq

/-- 3D vector (`glam::Vec3`, used for `Transform.translation` and `scale`). -/
structure Vec3 where
  x : ℚ
  y : ℚ
  z : ℚ
deriving DecidableEq

namespace Vec2

def add (a b : Vec2) : Vec2 := ⟨a.x + b.x, a.y + b.y⟩

/-- Componentwise scaling by a scalar (`Vec2 * f32`). -/
def scale (k : ℚ) (a : Vec2) : Vec2 := ⟨a.x * k, a.y * k⟩

/-- `Vec2::length_squared`. -/
def len2 (a : Vec2) : ℚ := a.x * a.x + a.y * a.y

instance : Add Vec2 := ⟨Vec2.add⟩

end Vec2

namespace Vec3

def add (a b : Vec3) : Vec3 := ⟨a.x + b.x, a.y + b.y, a.z + b.z⟩

def sub (a b : Vec3) : Vec3 := ⟨a.x - b.x, a.y - b.y, a.z - b.z⟩

/-- Componentwise scaling by a scalar (`Vec3 * f32`). -/
def scale (k : ℚ) (a : Vec3) : Vec3 := ⟨a.x * k, a.y * k, a.z * k⟩

def dot (a b : Vec3) : ℚ := a.x * b.x + a.y * b.y + a.z * b.z

/-- `Vec3::length_squared`. -/
def len2 (a : Vec3) : ℚ := a.x * a.x + a.y * a.y + a.z * a.z

instance : Add Vec3 := ⟨Vec3.add⟩
instance : Sub Vec3 := ⟨Vec3.sub⟩

/-- `Vec3::normalize`: divide by the length, the square root being the
oracle `sq` applied to the squared length. -/
def normalize (sq : ℚ → ℚ) (a : Vec3) : Vec3 :=
  let len := sq a.len2
  ⟨a.x / len, a.y / len, a.z / len⟩

end Vec3

/-- `ccw` from `main.rs`: strict counterclockwise orientation test. -/
def ccw (a b c : Vec3) : Bool :=
  (c.y - a.y) * (b.x - a.x) > (b.y - a.y) * (c.x - a.x)

/-- `intersect_segment_segment` from `main.rs`. -/
def intersect_segment_segment (a b c d : Vec3) : Bool :=
  ccw a c d ≠ ccw b c d ∧ ccw a b c ≠ ccw a b d

/-- `intersect_segment_circle` from `main.rs`: segment `[e, e+l]` versus the
circle of radius `r` around `c`. The discriminant's square root is the
oracle `sq`. -/
def intersect_segment_circle (sq : ℚ → ℚ) (e l c : Vec3) (r : ℚ) : Bool :=
  if (e + l - c).len2 < r * r then true
  else if (e - c).len2 < r * r then true
  else
    let d := l
    let f := e - c
    let a := d.len2
    let b := 2 * f.dot d
    let z := f.dot f - r * r
    let delta := b * b - 4 * a * z
    if delta > 0 then
      let deltaroot := sq delta
      let t1 := (-b - deltaroot) / (2 * a)
      if 0 ≤ t1 ∧ t1 ≤ 1 then true
      else
        let t2 := (-b + deltaroot) / (2 * a)
        if 0 ≤ t2 ∧ t2 ≤ 1 then true
        else false
    else false

/-- `collision_player_circle` from `main.rs`: corner (point-circle) response.
Returns the corrected `(position, velocity)`.  The source computes
`perp = Vec3::new(-out.y, out.x, 0.0).dot(out) * 2.0` and returns
`(norm * rad * 1.0005 + center, out * perp)`. -/
def collision_player_circle (sq : ℚ → ℚ) (pos vel center : Vec3) (rad : ℚ) :
    Vec3 × Vec3 :=
  if intersect_segment_circle sq pos vel center rad then
    let out := pos + vel - center
    let norm := out.normalize sq
    let perp := (Vec3.mk (-out.y) out.x 0).dot out * 2
    (Vec3.scale 1.0005 (Vec3.scale rad norm) + center, Vec3.scale perp out)
  else (pos, vel)

/-- `collision_player_wall` from `main.rs`.  The source's early returns become
a chain of conditionals; an outer `if` whose inner `if` fails falls through to
the next check, which the flattened `outer ∧ inner` chain reproduces exactly.
Note the source's `tl` argument is the corner with the *larger* coordinates
(see `move_players`), so `l` is the wall's max-x, `r` its min-x, `b` its
min-y and `t` its max-y. -/
def collision_player_wall (sq : ℚ → ℚ) (pos vel : Vec3) (rad : ℚ)
    (tl br : Vec3) : Bool × Vec3 × Vec3 :=
  let tr : Vec3 := ⟨br.x, tl.y, 0⟩
  let bl : Vec3 := ⟨tl.x, br.y, 0⟩
  let l := tl.x
  let r := br.x
  let b := br.y
  let t := tl.y
  if r < pos.x ∧ pos.x < l ∧ pos.y - rad < b ∧ pos.y + rad + vel.y > b then
    (true, ⟨pos.x, b - rad, 0⟩, ⟨vel.x, vel.y * (-0.1), 0⟩)
  else if r < pos.x ∧ pos.x < l ∧ pos.y + rad > t ∧ pos.y - rad + vel.y < t then
    (true, ⟨pos.x, t + rad, 0⟩, ⟨vel.x, vel.y * (-0.1), 0⟩)
  else if b < pos.y ∧ pos.y < t ∧ pos.x + rad > l ∧ pos.x - rad + vel.x < l then
    (true, ⟨l + rad, pos.y, 0⟩, ⟨vel.x * (-0.1), vel.y, 0⟩)
  else if b < pos.y ∧ pos.y < t ∧ pos.x - rad < r ∧ pos.x + rad + vel.x > r then
    (true, ⟨r - rad, pos.y, 0⟩, ⟨vel.x * (-0.1), vel.y, 0⟩)
  else if pos.x < r ∧ pos.y < b ∧ rad * rad > (br - pos - vel).len2 then
    (true, collision_player_circle sq pos vel br rad)
  else if pos.x > l ∧ pos.y < b ∧ rad * rad > (bl - pos - vel).len2 then
    (true, collision_player_circle sq pos vel bl rad)
  else if pos.x < r ∧ pos.y > t ∧ rad * rad > (tr - pos - vel).len2 then
    (true, collision_player_circle sq pos vel tr rad)
  else if pos.x > l ∧ pos.y > t ∧ rad * rad > (tl - pos - vel).len2 then
    (true, collision_player_circle sq pos vel tl rad)
  else (false, pos, vel)

/-- The `Fuse` component. -/
structure Fuse where
  lit : Bool
  timeleft : ℚ
deriving DecidableEq

/-- The `Player` component. -/
structure Player where
  handle : ℕ
  speed : ℚ
  radius : ℚ
deriving DecidableEq

/-- The `Rigidbody` component. -/
structure Rigidbody where
  vel : Vec2
  friction : ℚ
deriving DecidableEq

/-- The 3-byte wire input `BoxInput`.  The fields are `u8` on the wire;
the model carries them as naturals and the boundary theorems restrict to
`≤ 255` where it matters. -/
structure BoxInput where
  inp : ℕ
  sx : ℕ
  sy : ℕ
deriving DecidableEq

def INPUT_UP : ℕ := 1
def INPUT_DOWN : ℕ := 2
def INPUT_LEFT : ℕ := 4
def INPUT_RIGHT : ℕ := 8

/-- A player entity: `Player` + `Transform.translation` + `Rigidbody`
(the bundle spawned by `setup`). -/
structure PlayerEnt where
  player : Player
  translation : Vec3
  rb : Rigidbody
deriving DecidableEq

/-- A bullet entity: `Bullet` tag + `Transform.translation` + `Rigidbody` +
`Fuse` (the bundle spawned by `shoot`). -/
structure BulletEnt where
  translation : Vec3
  rb : Rigidbody
  fuse : Fuse
deriving DecidableEq

/-- A wall entity: `Wall` tag + `Transform` (`translation` and `scale`,
which encode the rectangle's center and size). -/
structure WallEnt where
  translation : Vec3
  scale : Vec3
deriving DecidableEq

/-- The simulation state: the rollback-registered entity set. -/
structure State where
  players : List PlayerEnt
  bullets : List BulletEnt
  walls : List WallEnt
deriving DecidableEq

/-- The default used for the (panicking) `inputs[handle]` lookup when the
handle is out of range; the claims never exercise that case. -/
def neutralInput : BoxInput := ⟨0, 127, 127⟩

/-- Body of the `movement` loop for one player, given its fetched input:
the four direction-bit checks build the acceleration, which is normalized
when nonzero and added to the velocity scaled by `player.speed`. -/
def movementOne (sq : ℚ → ℚ) (input : BoxInput) (p : PlayerEnt) : PlayerEnt :=
  let inp := input.inp
  let acc : Vec2 := ⟨0, 0⟩
  let acc := if inp &&& INPUT_UP ≠ 0 ∧ inp &&& INPUT_DOWN = 0 then
    Vec2.mk acc.x (acc.y + 1) else acc
  let acc := if inp &&& INPUT_UP = 0 ∧ inp &&& INPUT_DOWN ≠ 0 then
    Vec2.mk acc.x (acc.y - 1) else acc
  let acc := if inp &&& INPUT_LEFT ≠ 0 ∧ inp &&& INPUT_RIGHT = 0 then
    Vec2.mk (acc.x - 1) acc.y else acc
  let acc := if inp &&& INPUT_LEFT = 0 ∧ inp &&& INPUT_RIGHT ≠ 0 then
    Vec2.mk (acc.x + 1) acc.y else acc
  let acc := if acc.len2 > 0 then
    let len := sq acc.len2
    Vec2.mk (acc.x / len) (acc.y / len)
  else acc
  { p with rb := { p.rb with vel := p.rb.vel + Vec2.scale p.player.speed acc } }

/-- The `movement` system. -/
def movement (sq : ℚ → ℚ) (inputs : List BoxInput) (s : State) : State :=
  { s with players :=
      s.players.map fun p =>
        movementOne sq (inputs.getD p.player.handle neutralInput) p }

/-- Aim-axis decoding from `shoot`: `((byte as f32) - 127.0) / 256.0`. -/
def decodeAim (b : ℕ) : ℚ := ((b : ℚ) - 127) / 256

/-- Body of the `shoot` loop for one player: when the decoded aim vector is
nonzero, produce the spawned bullet (muzzle offset `2.0 + radius`, fuse
`lit = true, timeleft = 2.0`, velocity `aim * 10.0`, friction `0.0`). -/
def shootOne (sq : ℚ → ℚ) (input : BoxInput) (p : PlayerEnt) :
    Option BulletEnt :=
  let sx := decodeAim input.sx
  let sy := decodeAim input.sy
  let acc : Vec2 := ⟨sx, sy⟩
  if acc.len2 > 0 then
    let len := sq acc.len2
    let acc := Vec2.mk (acc.x / len) (acc.y / len)
    let head := Vec3.scale (2 + p.player.radius) ⟨acc.x, acc.y, 0⟩
    some { translation := p.translation + head
           rb := { vel := Vec2.scale 10 acc, friction := 0 }
           fuse := { lit := true, timeleft := 2 } }
  else none

/-- The `shoot` system.  `Commands` spawns are applied at the end of the
core stage, which appending the new bullets models. -/
def shoot (sq : ℚ → ℚ) (inputs : List BoxInput) (s : State) : State :=
  { s with bullets :=
      s.bullets ++
        s.players.filterMap fun p =>
          shootOne sq (inputs.getD p.player.handle neutralInput) p }

/-- The wall loop of `move_players`: fold the per-wall collision response
over all walls, carrying `(translation, vel)`.  Each iteration converts the
`Vec2` velocity to `Vec3` for `collision_player_wall` and drops the returned
`z`, exactly as the source does. -/
def collidePlayerWalls (sq : ℚ → ℚ) (walls : List WallEnt) (rad : ℚ)
    (pv : Vec3 × Vec2) : Vec3 × Vec2 :=
  walls.foldl
    (fun pv w =>
      let center := w.translation
      let halfsize := Vec3.scale 0.5 w.scale
      let bottomright := center + ⟨-halfsize.x, -halfsize.y, 0⟩
      let topleft := center + ⟨halfsize.x, halfsize.y, 0⟩
      let res := collision_player_wall sq pv.1 ⟨pv.2.x, pv.2.y, 0⟩ rad
        topleft bottomright
      (res.2.1, ⟨res.2.2.x, res.2.2.y⟩))
    pv

/-- Body of the `move_players` loop for one player: resolve all walls, then
integrate the position by the corrected velocity, then apply friction
(`vel *= 1.0 - friction`). -/
def movePlayerOne (sq : ℚ → ℚ) (walls : List WallEnt) (p : PlayerEnt) :
    PlayerEnt :=
  let pv := collidePlayerWalls sq walls p.player.radius (p.translation, p.rb.vel)
  let pos := pv.1
  let vel := pv.2
  { p with
    translation := ⟨pos.x + vel.x, pos.y + vel.y, pos.z⟩
    rb := { vel := Vec2.scale (1 - p.rb.friction) vel
            friction := p.rb.friction } }

/-- The `move_players` system. -/
def move_players (sq : ℚ → ℚ) (s : State) : State :=
  { s with players := s.players.map (movePlayerOne sq s.walls) }

/-- Impact detection of `move_bullets` for one bullet: the velocity segment
against every player circle, and against the four edges of every wall.  The
source runs two sequential loops each of which only ever writes
`timeleft = 0.0, lit = true` into the fuse; that write is idempotent, so the
fuse after both loops is determined by this disjunction. -/
def bulletHit (sq : ℚ → ℚ) (players : List PlayerEnt) (walls : List WallEnt)
    (b : BulletEnt) : Bool :=
  (players.any fun p =>
    intersect_segment_circle sq b.translation ⟨b.rb.vel.x, b.rb.vel.y, 0⟩
      p.translation p.player.radius)
  || (walls.any fun w =>
    let hi := b.translation
    let lo := b.translation + ⟨b.rb.vel.x, b.rb.vel.y, 0⟩
    let center := w.translation
    let halfsize := Vec3.scale 0.5 w.scale
    let bottomleft := center + ⟨halfsize.x, -halfsize.y, 0⟩
    let bottomright := center + ⟨-halfsize.x, -halfsize.y, 0⟩
    let topright := center + ⟨-halfsize.x, halfsize.y, 0⟩
    let topleft := center + ⟨halfsize.x, halfsize.y, 0⟩
    intersect_segment_segment hi lo bottomleft bottomright
      || intersect_segment_segment hi lo bottomright topright
      || intersect_segment_segment hi lo topright topleft
      || intersect_segment_segment hi lo topleft bottomleft)

/-- Body of the `move_bullets` loop for one bullet: impact detection writes
only the fuse; position is then integrated and friction applied exactly as
for players. -/
def moveBulletOne (sq : ℚ → ℚ) (players : List PlayerEnt)
    (walls : List WallEnt) (b : BulletEnt) : BulletEnt :=
  let fuse := if bulletHit sq players walls b then
    Fuse.mk true 0 else b.fuse
  { translation := ⟨b.translation.x + b.rb.vel.x, b.translation.y + b.rb.vel.y,
      b.translation.z⟩
    rb := { vel := Vec2.scale (1 - b.rb.friction) b.rb.vel
            friction := b.rb.friction }
    fuse := fuse }

/-- The `move_bullets` system. -/
def move_bullets (sq : ℚ → ℚ) (s : State) : State :=
  { s with bullets := s.bullets.map (moveBulletOne sq s.players s.walls) }

/-- Bounded scan used by `round32` to find the binary exponent `e` with
`2 ^ e ≤ q < 2 ^ (e + 1)`: starting from candidate exponent `e` with
`p = 2 ^ e ≤ 4`, halve until `p ≤ q`. -/
def findExpAux : ℕ → ℤ → ℚ → ℚ → ℤ
  | 0, e, _, _ => e
  | n + 1, e, p, q => if p ≤ q then e else findExpAux n (e - 1) (p / 2) q

/-- Binary exponent of `q`, valid for `q ∈ (2 ^ (-94), 4)`. -/
def findExp (q : ℚ) : ℤ := findExpAux 96 2 4 q

/-- IEEE binary32 round-to-nearest-even on exact rationals, valid for
magnitudes in `(2 ^ (-90), 4)` (no subnormal or overflow handling is needed
in that range, which covers every value of the fuse countdown).  The
significand is scaled to `[2 ^ 23, 2 ^ 24)` and rounded half-to-even. -/
def round32 (x : ℚ) : ℚ :=
  if x = 0 then 0
  else
    let s : ℚ := if 0 < x then 1 else -1
    let a := |x|
    let e := findExp a
    let k := (23 - e).toNat
    let m := a * 2 ^ k
    let fl := ⌊m⌋
    let fr := m - (fl : ℚ)
    let mr : ℤ :=
      if fr < 1 / 2 then fl
      else if 1 / 2 < fr then fl + 1
      else if fl % 2 = 0 then fl else fl + 1
    s * (mr : ℚ) / 2 ^ k

/-- The exact rational value of the binary32 constant `1.0 / (FPS as f32)`
with `FPS = 60`, i.e. `8947849 * 2 ^ (-29)`. -/
def dt32 : ℚ := 8947849 / 536870912

/-- Body of the `clean_fuses` loop for one fuse-bearing entity (only bullets
carry a `Fuse`): a lit fuse loses one tick (an f32 subtraction, modelled by
`round32` of the exact difference) and the entity is despawned (`none`) when
the remaining time is `≤ 0`. -/
def cleanFuseOne (b : BulletEnt) : Option BulletEnt :=
  if b.fuse.lit then
    let t := round32 (b.fuse.timeleft - dt32)
    if t ≤ 0 then none
    else some { b with fuse := { lit := b.fuse.lit, timeleft := t } }
  else some b

/-- The `clean_fuses` system.  `Commands::despawn` is applied at stage end,
which the `filterMap` models; players carry no `Fuse`, so the query touches
only bullets. -/
def clean_fuses (s : State) : State :=
  { s with bullets := s.bullets.filterMap cleanFuseOne }

/-- One simulated tick: the rollback schedule's stage sequence.  The core
stage holds `movement` and `shoot` (listed in this order), followed by the
strictly ordered stages `move_players`, `move_bullets`, `clean_fuses`. -/
def tick (sq : ℚ → ℚ) (inputs : List BoxInput) (s : State) : State :=
  clean_fuses (move_bullets sq (move_players sq
    (shoot sq inputs (movement sq inputs s))))

/-- The player entities spawned by `setup`: one per handle
`0 .. num_players - 1`, at `x = handle * 20`, with `speed = 1.0`,
`radius = 10.0`, zero velocity and `friction = 0.2`. -/
def setup (num_players : ℕ) : List PlayerEnt :=
  (List.range num_players).map fun handle =>
    { player := { handle := handle, speed := 1, radius := 10 }
      translation := ⟨(handle : ℚ) * 20, 0, 0⟩
      rb := { vel := ⟨0, 0⟩, friction := 0.2 } }

/-- One `walls` entry of the map file: `[x0, y0, x1, y1, kind]`. -/
structure WallRect where
  x0 : ℤ
  y0 : ℤ
  x1 : ℤ
  y1 : ℤ
  kind : ℤ
deriving DecidableEq

/-- The `Wall` entities spawned by `setup_map` (the untagged black backdrop
sprites are render-only and not modelled).  `origin` is
`(maxx - minx, maxy - miny, 0)` over the bounding box of all walls, and each
wall's center is `(upleft + downright - origin) / 2`, lowered by one `z` for
`kind = 2`.  The `min`/`max` of the source panic on an empty wall list; the
model totalizes them with a default the theorems never rely on. -/
def setup_map (walls : List WallRect) : List WallEnt :=
  let minx : ℚ := (((walls.map fun w => w.x0).min?.getD 0 : ℤ) : ℚ)
  let maxx : ℚ := (((walls.map fun w => w.x1).max?.getD 0 : ℤ) : ℚ)
  let miny : ℚ := (((walls.map fun w => w.y0).min?.getD 0 : ℤ) : ℚ)
  let maxy : ℚ := (((walls.map fun w => w.y1).max?.getD 0 : ℤ) : ℚ)
  let origin : Vec3 := ⟨maxx - minx, maxy - miny, 0⟩
  walls.map fun w =>
    let upleft : Vec3 := ⟨(w.x0 : ℚ), (w.y0 : ℚ), 0⟩
    let downright : Vec3 := ⟨(w.x1 : ℚ), (w.y1 : ℚ), 0⟩
    let center := Vec3.scale (1 / 2) (upleft + downright - origin)
    let size : Vec3 := ⟨((w.x1 : ℚ) - (w.x0 : ℚ)), ((w.y1 : ℚ) - (w.y0 : ℚ)), 1⟩
    let movecenter := center - ⟨0, 0, if w.kind = 2 then 1 else 0⟩
    { translation := movecenter, scale := size }

/-- A state holding a single freshly shot bullet (fuse `lit = true`,
`timeleft = 2.0`), used to trace the lifecycle sweep. -/
def fuseTestState : State :=
  { players := []
    bullets := [{ translation := ⟨0, 0, 0⟩
                  rb := { vel := ⟨0, 0⟩, friction := 0 }
                  fuse := { lit := true, timeleft := 2 } }]
    walls := [] }

/-! ## Helper lemmas -/

theorem Vec2.addTwo_eq (a b : Vec2) : a + b = ⟨a.x + b.x, a.y + b.y⟩ := rfl

theorem Vec3.addThree_eq (a b : Vec3) : a + b = ⟨a.x + b.x, a.y + b.y, a.z + b.z⟩ := rfl

theorem Vec3.subThree_eq (a b : Vec3) : a - b = ⟨a.x - b.x, a.y - b.y, a.z - b.z⟩ := rfl

/-! ## Claims -/

/-- Claim C10 (confirmed): with a zero segment direction the
segment-vs-circle test is total and well-defined for every square-root
oracle: both endpoint checks coincide, the quadratic branch is unreachable
(its discriminant is `0 - 0 = 0` since `a = b = 0`), and the result is true
iff the point lies strictly within `r` of the center. -/
theorem C10_zero_segment_circle (sq : ℚ → ℚ) (e c : Vec3) (r : ℚ) :
    intersect_segment_circle sq e ⟨0, 0, 0⟩ c r = true ↔ (e - c).len2 < r * r := by
  have h0 : e + (⟨0, 0, 0⟩ : Vec3) - c = e - c := by
    simp [Vec3.addThree_eq, Vec3.subThree_eq]
  unfold intersect_segment_circle
  rw [h0]
  by_cases h : (e - c).len2 < r * r
  · simp [h]
  · simp only [h, if_false]
    have hd : ¬((2 * (e - c).dot ⟨0, 0, 0⟩) * (2 * (e - c).dot ⟨0, 0, 0⟩)
        - 4 * (Vec3.len2 ⟨0, 0, 0⟩) * ((e - c).dot (e - c) - r * r) > 0) := by
      simp [Vec3.dot, Vec3.len2]
    simp only [hd, if_false]
    simp [h]

/-- Claim C10 witness: the zero-segment test at a concrete point inside a
concrete circle. -/
theorem C10_witness :
    intersect_segment_circle (fun _ => 0) ⟨0, 0, 0⟩ ⟨0, 0, 0⟩ ⟨1, 0, 0⟩ 2 = true :=
  (C10_zero_segment_circle (fun _ => 0) ⟨0, 0, 0⟩ ⟨1, 0, 0⟩ 2).mpr (by decide)

/-- Claim C1 counterexample: a player with `friction = 0.2`, velocity
`(1, 0)` and no walls ends `move_players` with velocity `(0.8, 0)`, which is
not `friction * pre = (0.2, 0)`: the fraction retained is `1 - friction`,
not `friction`. -/
theorem C1_counterexample :
    ((move_players (fun _ => 0)
        ⟨[⟨⟨0, 1, 10⟩, ⟨0, 0, 0⟩, ⟨⟨1, 0⟩, 0.2⟩⟩], [], []⟩).players.map
      fun p => p.rb.vel) = [⟨4/5, 0⟩]
    ∧ ¬(((move_players (fun _ => 0)
        ⟨[⟨⟨0, 1, 10⟩, ⟨0, 0, 0⟩, ⟨⟨1, 0⟩, 0.2⟩⟩], [], []⟩).players.map
      fun p => p.rb.vel) = [Vec2.scale 0.2 ⟨1, 0⟩]) := by
  decide

/-- Claim C1 (corrected): at the end of each per-tick move system, after
position integration, the velocity is scaled by `1 - friction` (the fraction
*retained* is `1 - friction`, so a player with `friction = 0.2` retains 80%
of its velocity each tick): for players the scaling applies to the
wall-corrected velocity, for bullets to the incoming velocity. -/
theorem C1_friction_retained (sq : ℚ → ℚ) (walls : List WallEnt)
    (p : PlayerEnt) (ps : List PlayerEnt) (ws : List WallEnt) (b : BulletEnt) :
    (movePlayerOne sq walls p).rb.vel
      = Vec2.scale (1 - p.rb.friction)
          (collidePlayerWalls sq walls p.player.radius (p.translation, p.rb.vel)).2
    ∧ (moveBulletOne sq ps ws b).rb.vel
      = Vec2.scale (1 - b.rb.friction) b.rb.vel :=
  ⟨rfl, rfl⟩

/-- Claim C2 counterexample: a corner collision (the min-x/min-y corner
branch of `collision_player_wall` fires) with incoming velocity `(1, 1, 0)`,
which is nonzero and not aligned with the corner-to-endpoint normal
`out = (-1, 0, 0)`, returns the *zero* velocity — not a reflection of
unchanged magnitude. -/
theorem C2_counterexample :
    (collision_player_wall (fun _ => 0) ⟨0, -1, 0⟩ ⟨1, 1, 0⟩ 2
        ⟨5, 5, 0⟩ ⟨2, 0, 0⟩).1 = true
    ∧ (collision_player_wall (fun _ => 0) ⟨0, -1, 0⟩ ⟨1, 1, 0⟩ 2
        ⟨5, 5, 0⟩ ⟨2, 0, 0⟩).2
      = collision_player_circle (fun _ => 0) ⟨0, -1, 0⟩ ⟨1, 1, 0⟩ ⟨2, 0, 0⟩ 2
    ∧ (collision_player_wall (fun _ => 0) ⟨0, -1, 0⟩ ⟨1, 1, 0⟩ 2
        ⟨5, 5, 0⟩ ⟨2, 0, 0⟩).2.2 = ⟨0, 0, 0⟩
    ∧ (⟨1, 1, 0⟩ : Vec3) ≠ ⟨0, 0, 0⟩
    ∧ (let out := (⟨0, -1, 0⟩ : Vec3) + ⟨1, 1, 0⟩ - ⟨2, 0, 0⟩
       (1 : ℚ) * out.y - 1 * out.x ≠ 0)
    ∧ Vec3.len2 ⟨0, 0, 0⟩ ≠ Vec3.len2 ⟨1, 1, 0⟩ := by
  decide

/-- Claim C2 (corrected): whenever the corner check fires (the corner point
lies within the player's radius of the attempted end position — which is
exactly the guard under which `collision_player_wall` calls
`collision_player_circle`), the corrected velocity returned is the zero
vector, for every square-root oracle: the source's
`perp = dot((-out.y, out.x, 0), out) * 2` is identically zero, so
`out * perp = 0`.  The velocity is zeroed, not reflected. -/
theorem C2_corner_zeroes_velocity (sq : ℚ → ℚ) (pos vel center : Vec3)
    (rad : ℚ) (h : (pos + vel - center).len2 < rad * rad) :
    (collision_player_circle sq pos vel center rad).2 = ⟨0, 0, 0⟩ := by
  have hi : intersect_segment_circle sq pos vel center rad = true := by
    unfold intersect_segment_circle
    rw [if_pos h]
  unfold collision_player_circle
  rw [hi]
  simp only [if_true]
  show Vec3.scale ((Vec3.mk (-(pos + vel - center).y) (pos + vel - center).x 0).dot
      (pos + vel - center) * 2) (pos + vel - center) = ⟨0, 0, 0⟩
  simp only [Vec3.dot, Vec3.scale]
  have hx : ∀ o : Vec3, (-o.y * o.x + o.x * o.y + 0 * o.z) * 2 = 0 := by
    intro o; ring
  rw [hx]
  simp

/-- Claim C2 witness: the zero-velocity conclusion at a concrete corner
collision. -/
theorem C2_witness :
    (Vec3.len2 ((⟨0, -1, 0⟩ : Vec3) + ⟨1, 1, 0⟩ - ⟨2, 0, 0⟩) < 2 * 2)
    ∧ (collision_player_circle (fun _ => 1) ⟨0, -1, 0⟩ ⟨1, 1, 0⟩ ⟨2, 0, 0⟩ 2).2
      = ⟨0, 0, 0⟩ :=
  ⟨by decide, C2_corner_zeroes_velocity (fun _ => 1) _ _ _ _ (by decide)⟩

set_option maxRecDepth 1000000 in
/-- Claim C3 counterexample: after 120 lifecycle sweeps the bullet created
with `timeleft = 2.0, lit = true` is *still present* — the binary32 value of
`1.0 / 60.0` is `8947849 * 2 ^ (-29) > 1/60`, yet rounding of the running
f32 subtraction leaves `timeleft = 331 * 2 ^ (-28) ≈ 1.23e-6 > 0` after 120
sweeps, so it is not despawned at sweep 120 as claimed. -/
theorem C3_counterexample :
    (clean_fuses^[120] fuseTestState).bullets.length = 1
    ∧ ((clean_fuses^[120] fuseTestState).bullets.map fun b => b.fuse.timeleft)
      = [331 / 268435456] := by
  decide

set_option maxRecDepth 1000000 in
/-- Claim C3 (corrected): under the lifecycle sweep as the implementation
computes it (binary32 arithmetic), a bullet created with
`time_left = 2.0, lit = true` survives exactly 121 sweeps: still present
after sweeps 119 and 120, despawned at sweep 121.  The impact clause holds
as claimed: a fuse with `time_left = 0` and `lit = true` is despawned on the
very next sweep. -/
theorem C3_fuse_survival :
    (clean_fuses^[119] fuseTestState).bullets.length = 1
    ∧ (clean_fuses^[120] fuseTestState).bullets.length = 1
    ∧ (clean_fuses^[121] fuseTestState).bullets.length = 0
    ∧ ∀ b : BulletEnt, b.fuse.lit = true → b.fuse.timeleft = 0 →
        cleanFuseOne b = none := by
  refine ⟨by decide, by decide, by decide, ?_⟩
  intro b hlit ht
  unfold cleanFuseOne
  rw [hlit, ht]
  simp only [if_true]
  rw [if_pos (by decide : round32 (0 - dt32) ≤ 0)]

/-- Claim C3 witness: a concrete impacted bullet (`time_left = 0`,
`lit = true`) is removed by a single sweep. -/
theorem C3_witness :
    ((⟨⟨0, 0, 0⟩, ⟨⟨0, 0⟩, 0⟩, ⟨true, 0⟩⟩ : BulletEnt).fuse.lit = true)
    ∧ cleanFuseOne ⟨⟨0, 0, 0⟩, ⟨⟨0, 0⟩, 0⟩, ⟨true, 0⟩⟩ = none :=
  ⟨rfl, C3_fuse_survival.2.2.2 _ rfl rfl⟩

/-- Claim C7 (confirmed): `move_bullets` maps every bullet through the same
per-bullet transformation; an impact (velocity segment crossing a player
circle or a wall edge, `bulletHit`) mutates only the fuse, setting it to
`time_left = 0, lit = true`; with no impact the fuse is untouched; in both
cases the position is integrated by the velocity and friction is applied
exactly as in the no-impact case, and no bullet is removed (removal happens
only in `clean_fuses`). -/
theorem C7_impact_only_sets_fuse (sq : ℚ → ℚ) (s : State)
    (ps : List PlayerEnt) (ws : List WallEnt) (b : BulletEnt) :
    (move_bullets sq s).bullets = s.bullets.map (moveBulletOne sq s.players s.walls)
    ∧ (move_bullets sq s).bullets.length = s.bullets.length
    ∧ (moveBulletOne sq ps ws b).translation
      = ⟨b.translation.x + b.rb.vel.x, b.translation.y + b.rb.vel.y, b.translation.z⟩
    ∧ (moveBulletOne sq ps ws b).rb
      = ⟨Vec2.scale (1 - b.rb.friction) b.rb.vel, b.rb.friction⟩
    ∧ (bulletHit sq ps ws b = true → (moveBulletOne sq ps ws b).fuse = ⟨true, 0⟩)
    ∧ (bulletHit sq ps ws b = false → (moveBulletOne sq ps ws b).fuse = b.fuse) := by
  refine ⟨rfl, by simp [move_bullets], rfl, rfl, ?_, ?_⟩
  · intro h
    simp [moveBulletOne, h]
  · intro h
    simp [moveBulletOne, h]

/-- Claim C7 witness: a concrete bullet whose velocity segment crosses a
wall edge gets its fuse set to `lit = true, time_left = 0`. -/
theorem C7_witness :
    bulletHit (fun _ => 0) [] [⟨⟨0, 0, 0⟩, ⟨40, 40, 1⟩⟩]
      ⟨⟨-30, 0, 0⟩, ⟨⟨20, 0⟩, 0⟩, ⟨false, 2⟩⟩ = true
    ∧ (moveBulletOne (fun _ => 0) [] [⟨⟨0, 0, 0⟩, ⟨40, 40, 1⟩⟩]
        ⟨⟨-30, 0, 0⟩, ⟨⟨20, 0⟩, 0⟩, ⟨false, 2⟩⟩).fuse = ⟨true, 0⟩ :=
  ⟨by decide,
    (C7_impact_only_sets_fuse (fun _ => 0) ⟨[], [], []⟩ [] [⟨⟨0, 0, 0⟩, ⟨40, 40, 1⟩⟩]
      ⟨⟨-30, 0, 0⟩, ⟨⟨20, 0⟩, 0⟩, ⟨false, 2⟩⟩).2.2.2.2.1 (by decide)⟩

/-- Claim C8 counterexample: for the single-wall list `[[10,10,30,30,1]]`
the wall rectangle's midpoint `(20, 20)` *is* the bounding-box midpoint, so
the claimed centering would place the spawned wall at `(0, 0)`; the code
places it at `(10, 10)` (it subtracts the bounding-box *extent* over 2, not
the bounding-box midpoint). -/
theorem C8_counterexample :
    ((setup_map [⟨10, 10, 30, 30, 1⟩]).map
      fun w => (w.translation.x, w.translation.y)) = [((10 : ℚ), (10 : ℚ))]
    ∧ ((10 : ℚ), (10 : ℚ)) ≠ ((0 : ℚ), (0 : ℚ)) := by
  decide

/-- Claim C8 (corrected): each spawned wall's center equals the wall
rectangle's midpoint translated by minus half the bounding-box *extent*
`((maxx - minx) / 2, (maxy - miny) / 2)` per axis.  Consequently the
bounding-box midpoint maps to `(minx, miny)`, so the arena is centered on
the origin only when the bounding box's min corner is `(0, 0)` — not for
every wall list as claimed. -/
theorem C8_wall_centering (walls : List WallRect) (i : ℕ)
    (hi : i < walls.length) :
    let w := walls.getD i ⟨0, 0, 0, 0, 0⟩
    let minx : ℚ := (((walls.map fun v => v.x0).min?.getD 0 : ℤ) : ℚ)
    let maxx : ℚ := (((walls.map fun v => v.x1).max?.getD 0 : ℤ) : ℚ)
    let miny : ℚ := (((walls.map fun v => v.y0).min?.getD 0 : ℤ) : ℚ)
    let maxy : ℚ := (((walls.map fun v => v.y1).max?.getD 0 : ℤ) : ℚ)
    ((setup_map walls).getD i ⟨⟨0, 0, 0⟩, ⟨0, 0, 0⟩⟩).translation.x
        = ((w.x0 : ℚ) + (w.x1 : ℚ)) / 2 - (maxx - minx) / 2
    ∧ ((setup_map walls).getD i ⟨⟨0, 0, 0⟩, ⟨0, 0, 0⟩⟩).translation.y
        = ((w.y0 : ℚ) + (w.y1 : ℚ)) / 2 - (maxy - miny) / 2 := by
  intro w minx maxx miny maxy
  unfold w minx maxx miny maxy
  have hlen : i < (setup_map walls).length := by
    simpa [setup_map] using hi
  have hw : walls.getD i ⟨0, 0, 0, 0, 0⟩ = walls[i] := by
    simp [List.getD_eq_getElem?_getD, List.getElem?_eq_getElem hi]
  have hsm : (setup_map walls).getD i ⟨⟨0, 0, 0⟩, ⟨0, 0, 0⟩⟩
      = (setup_map walls)[i] := by
    simp [List.getD_eq_getElem?_getD, List.getElem?_eq_getElem hlen]
  rw [hsm, hw]
  unfold setup_map
  simp only [List.getElem_map, Vec3.addThree_eq, Vec3.subThree_eq, Vec3.scale]
  constructor
  · ring
  · ring

/-- Claim C8 witness: the centering formula at a concrete two-wall list. -/
theorem C8_witness :
    1 < ([⟨0, 0, 4, 2, 1⟩, ⟨2, 0, 6, 2, 3⟩] : List WallRect).length
    ∧ (let w := ([⟨0, 0, 4, 2, 1⟩, ⟨2, 0, 6, 2, 3⟩] : List WallRect).getD 1 ⟨0, 0, 0, 0, 0⟩
       let minx : ℚ := ((([⟨0, 0, 4, 2, 1⟩, ⟨2, 0, 6, 2, 3⟩] : List WallRect).map
          fun v => v.x0).min?.getD 0 : ℤ)
       let maxx : ℚ := ((([⟨0, 0, 4, 2, 1⟩, ⟨2, 0, 6, 2, 3⟩] : List WallRect).map
          fun v => v.x1).max?.getD 0 : ℤ)
       let miny : ℚ := ((([⟨0, 0, 4, 2, 1⟩, ⟨2, 0, 6, 2, 3⟩] : List WallRect).map
          fun v => v.y0).min?.getD 0 : ℤ)
       let maxy : ℚ := ((([⟨0, 0, 4, 2, 1⟩, ⟨2, 0, 6, 2, 3⟩] : List WallRect).map
          fun v => v.y1).max?.getD 0 : ℤ)
       ((setup_map [⟨0, 0, 4, 2, 1⟩, ⟨2, 0, 6, 2, 3⟩]).getD 1
          ⟨⟨0, 0, 0⟩, ⟨0, 0, 0⟩⟩).translation.x
           = ((w.x0 : ℚ) + (w.x1 : ℚ)) / 2 - (maxx - minx) / 2
       ∧ ((setup_map [⟨0, 0, 4, 2, 1⟩, ⟨2, 0, 6, 2, 3⟩]).getD 1
          ⟨⟨0, 0, 0⟩, ⟨0, 0, 0⟩⟩).translation.y
           = ((w.y0 : ℚ) + (w.y1 : ℚ)) / 2 - (maxy - miny) / 2) :=
  ⟨by decide, C8_wall_centering [⟨0, 0, 4, 2, 1⟩, ⟨2, 0, 6, 2, 3⟩] 1 (by decide)⟩

/-- Claim C5 (confirmed): aim-axis bytes decode via `(byte - 127) / 256`:
byte `127` contributes exactly `0`, bytes `0` and `255` decode to the two
extremes `-127/256` and `128/256` of that map (every byte `≤ 255` decodes
between them), and a direction bitmask with both opposing bits of an axis
set (here up and down) contributes zero acceleration on that axis in the
movement system: the player's `y` velocity is unchanged. -/
theorem C5_input_decode_boundary (sq : ℚ → ℚ) (b : ℕ) (input : BoxInput)
    (p : PlayerEnt) (hb : b ≤ 255)
    (hu : input.inp &&& INPUT_UP ≠ 0) (hd : input.inp &&& INPUT_DOWN ≠ 0) :
    decodeAim 127 = 0
    ∧ decodeAim 0 = -(127 / 256)
    ∧ decodeAim 255 = 128 / 256
    ∧ decodeAim 0 ≤ decodeAim b ∧ decodeAim b ≤ decodeAim 255
    ∧ (movementOne sq input p).rb.vel.y = p.rb.vel.y := by
  have hbq : (b : ℚ) ≤ 255 := by exact_mod_cast hb
  have hb0 : (0 : ℚ) ≤ (b : ℚ) := Nat.cast_nonneg b
  refine ⟨by norm_num [decodeAim], by norm_num [decodeAim],
    by norm_num [decodeAim], ?_, ?_, ?_⟩
  · unfold decodeAim
    push_cast
    linarith
  · unfold decodeAim
    push_cast
    linarith
  · simp only [movementOne]
    rw [if_neg (show ¬(input.inp &&& INPUT_UP ≠ 0 ∧ input.inp &&& INPUT_DOWN = 0)
          from fun hcon => hd hcon.2),
      if_neg (show ¬(input.inp &&& INPUT_UP = 0 ∧ input.inp &&& INPUT_DOWN ≠ 0)
          from fun hcon => hu hcon.1)]
    split_ifs <;> simp [Vec2.addTwo_eq, Vec2.scale]

/-- Claim C5 witness: the boundary values and the up-and-down cancellation
at a concrete input (`inp = 3` sets both `INPUT_UP` and `INPUT_DOWN`). -/
theorem C5_witness :
    decodeAim 127 = 0
    ∧ decodeAim 0 = -(127 / 256)
    ∧ decodeAim 255 = 128 / 256
    ∧ decodeAim 0 ≤ decodeAim 200 ∧ decodeAim 200 ≤ decodeAim 255
    ∧ (movementOne (fun _ => 1) ⟨3, 127, 127⟩
        ⟨⟨0, 1, 10⟩, ⟨0, 0, 0⟩, ⟨⟨5, 7⟩, 0.2⟩⟩).rb.vel.y
      = (⟨⟨0, 1, 10⟩, ⟨0, 0, 0⟩, ⟨⟨5, 7⟩, 0.2⟩⟩ : PlayerEnt).rb.vel.y :=
  C5_input_decode_boundary (fun _ => 1) 200 ⟨3, 127, 127⟩
    ⟨⟨0, 1, 10⟩, ⟨0, 0, 0⟩, ⟨⟨5, 7⟩, 0.2⟩⟩ (by decide) (by decide) (by decide)

/-- Claim C6 (confirmed): each face branch of `collision_player_wall`
(player overlapping a face slab and crossing it this tick) clamps the
position to exactly `rad` from that face, multiplies only the perpendicular
velocity component by `-0.1`, leaves the parallel component (and the other
position coordinate) unchanged, and after the tick's position integration
(`pos + vel` in `move_players`) the center lies strictly outside that face.
The four conjuncts are the four faces in source order, each under its guard
and the negations of the earlier guards. -/
theorem C6_face_clamp (sq : ℚ → ℚ) (pos vel : Vec3) (rad : ℚ) (tl br : Vec3)
    (hrad : 0 ≤ rad) :
    (br.x < pos.x ∧ pos.x < tl.x ∧ pos.y - rad < br.y ∧ pos.y + rad + vel.y > br.y →
      collision_player_wall sq pos vel rad tl br
          = (true, ⟨pos.x, br.y - rad, 0⟩, ⟨vel.x, vel.y * (-0.1), 0⟩)
        ∧ (br.y - rad) + vel.y * (-0.1) < br.y)
    ∧ (¬(br.x < pos.x ∧ pos.x < tl.x ∧ pos.y - rad < br.y ∧ pos.y + rad + vel.y > br.y) →
       (br.x < pos.x ∧ pos.x < tl.x ∧ pos.y + rad > tl.y ∧ pos.y - rad + vel.y < tl.y) →
      collision_player_wall sq pos vel rad tl br
          = (true, ⟨pos.x, tl.y + rad, 0⟩, ⟨vel.x, vel.y * (-0.1), 0⟩)
        ∧ tl.y < (tl.y + rad) + vel.y * (-0.1))
    ∧ (¬(br.x < pos.x ∧ pos.x < tl.x ∧ pos.y - rad < br.y ∧ pos.y + rad + vel.y > br.y) →
       ¬(br.x < pos.x ∧ pos.x < tl.x ∧ pos.y + rad > tl.y ∧ pos.y - rad + vel.y < tl.y) →
       (br.y < pos.y ∧ pos.y < tl.y ∧ pos.x + rad > tl.x ∧ pos.x - rad + vel.x < tl.x) →
      collision_player_wall sq pos vel rad tl br
          = (true, ⟨tl.x + rad, pos.y, 0⟩, ⟨vel.x * (-0.1), vel.y, 0⟩)
        ∧ tl.x < (tl.x + rad) + vel.x * (-0.1))
    ∧ (¬(br.x < pos.x ∧ pos.x < tl.x ∧ pos.y - rad < br.y ∧ pos.y + rad + vel.y > br.y) →
       ¬(br.x < pos.x ∧ pos.x < tl.x ∧ pos.y + rad > tl.y ∧ pos.y - rad + vel.y < tl.y) →
       ¬(br.y < pos.y ∧ pos.y < tl.y ∧ pos.x + rad > tl.x ∧ pos.x - rad + vel.x < tl.x) →
       (br.y < pos.y ∧ pos.y < tl.y ∧ pos.x - rad < br.x ∧ pos.x + rad + vel.x > br.x) →
      collision_player_wall sq pos vel rad tl br
          = (true, ⟨br.x - rad, pos.y, 0⟩, ⟨vel.x * (-0.1), vel.y, 0⟩)
        ∧ (br.x - rad) + vel.x * (-0.1) < br.x) := by
  have hq : (-0.1 : ℚ) = -(1 / 10) := by norm_num
  refine ⟨?_, ?_, ?_, ?_⟩
  · intro hg
    refine ⟨?_, ?_⟩
    · simp only [collision_player_wall]
      rw [if_pos hg]
    · rw [hq]
      obtain ⟨-, -, h3, h4⟩ := hg
      linarith
  · intro hn1 hg
    refine ⟨?_, ?_⟩
    · simp only [collision_player_wall]
      rw [if_neg hn1, if_pos hg]
    · rw [hq]
      obtain ⟨-, -, h3, h4⟩ := hg
      linarith
  · intro hn1 hn2 hg
    refine ⟨?_, ?_⟩
    · simp only [collision_player_wall]
      rw [if_neg hn1, if_neg hn2, if_pos hg]
    · rw [hq]
      obtain ⟨-, -, h3, h4⟩ := hg
      linarith
  · intro hn1 hn2 hn3 hg
    refine ⟨?_, ?_⟩
    · simp only [collision_player_wall]
      rw [if_neg hn1, if_neg hn2, if_neg hn3, if_pos hg]
    · rw [hq]
      obtain ⟨-, -, h3, h4⟩ := hg
      linarith

/-- Claim C6 witness: the bottom-face clamp at a concrete approach from
below. -/
theorem C6_witness :
    collision_player_wall (fun _ => 1) ⟨0, -15, 0⟩ ⟨0, 3, 0⟩ 10
        ⟨20, 20, 0⟩ ⟨-20, -20, 0⟩
      = (true, ⟨0, (-20 : ℚ) - 10, 0⟩, ⟨0, 3 * (-0.1), 0⟩)
    ∧ ((-20 : ℚ) - 10) + 3 * (-0.1) < -20 :=
  (C6_face_clamp (fun _ => 1) ⟨0, -15, 0⟩ ⟨0, 3, 0⟩ 10 ⟨20, 20, 0⟩
    ⟨-20, -20, 0⟩ (by norm_num)).1 (by norm_num)

/-- Claim C9 (confirmed): `setup` creates exactly one player per handle
`0 .. num_players - 1`, and a full tick (all five systems, including the
only despawn site `clean_fuses`, which operates exclusively on fuse-bearing
bullets) preserves the player entity set: the handle list — and hence the
number of players — is invariant. -/
theorem C9_players_invariant (n : ℕ) (sq : ℚ → ℚ) (inputs : List BoxInput)
    (s : State) :
    ((setup n).map fun p => p.player.handle) = List.range n
    ∧ ((tick sq inputs s).players.map fun p => p.player.handle)
      = (s.players.map fun p => p.player.handle)
    ∧ (tick sq inputs s).players.length = s.players.length := by
  have h2 : ((tick sq inputs s).players.map fun p => p.player.handle)
      = (s.players.map fun p => p.player.handle) := by
    cases s with
    | mk ps bs ws =>
      simp only [tick, clean_fuses, move_bullets, move_players, shoot, movement,
        List.map_map]
      exact List.map_congr_left fun a ha => rfl
  refine ⟨?_, h2, ?_⟩
  · simp [setup, List.map_map, Function.comp_def]
  · have := congrArg List.length h2
    simpa using this

/-- Claim C4 (confirmed): the per-tick transition is the sequential
composition `movement`, `shoot`, `move_players`, `move_bullets`,
`clean_fuses` (which is how `tick` is composed), and it is independent of
the interleaving of the parallel core stage: `movement` and `shoot` commute
(`movement` only writes player velocities, which `shoot` never reads), so
running `shoot` before `movement` yields the identical tick. -/
theorem C4_tick_order (sq : ℚ → ℚ) (inputs : List BoxInput) (s : State) :
    shoot sq inputs (movement sq inputs s) = movement sq inputs (shoot sq inputs s)
    ∧ tick sq inputs s
      = clean_fuses (move_bullets sq (move_players sq
          (movement sq inputs (shoot sq inputs s)))) := by
  have key : ∀ ps : List PlayerEnt,
      ((ps.map fun p => movementOne sq (inputs.getD p.player.handle neutralInput) p).filterMap
          fun p => shootOne sq (inputs.getD p.player.handle neutralInput) p)
        = ps.filterMap fun p => shootOne sq (inputs.getD p.player.handle neutralInput) p := by
    intro ps
    induction ps with
    | nil => rfl
    | cons a l ih =>
      simp only [List.map_cons, List.filterMap_cons]
      have ha : (shootOne sq (inputs.getD
            (movementOne sq (inputs.getD a.player.handle neutralInput) a).player.handle
            neutralInput)
          (movementOne sq (inputs.getD a.player.handle neutralInput) a))
          = shootOne sq (inputs.getD a.player.handle neutralInput) a := rfl
      rw [ha, ih]
  have h1 : shoot sq inputs (movement sq inputs s)
      = movement sq inputs (shoot sq inputs s) := by
    cases s with
    | mk ps bs ws =>
      simp only [shoot, movement]
      rw [key ps]
  refine ⟨h1, ?_⟩
  unfold tick
  rw [h1]
